import Mathlib

/-!
Verification development for the JUS-Learn backend (src/backend/index.js).

The backend is a thin REST layer over a SQLite store with three tables
(users, topics, assignments).  This file gives a shallow embedding of the
store state, the startup initialization/seeding script, and the five route
handlers (signup, login, modules, upload, progress), translated directly
from index.js, and proves properties of them.

Modelling conventions:
  - SQLite tables are lists of rows; AUTOINCREMENT primary keys are modelled
    by an explicit next-id counter carried in the state.
  - bcrypt.hash is modelled by an abstract function hashFn : String → String;
    bcrypt.compare p h is modelled as hashFn p == h when a password is
    present.  When the password field is absent, bcrypt.compare rejects
    ("data and hash arguments required") instead of resolving; the rejection
    is unhandled in the login handler's async callback, so no response is
    ever sent on that path.  bcryptCompareChecked and loginChecked model
    this full behavior (none = no response); bcryptCompare and login model
    the present-password fragment and agree with the checked model there.
  - Request-body fields are Option String: none models a field absent from
    the JSON body (JS undefined), some "" an empty string.  The JS truthiness
    test !x rejects both.
  - Store write failures that are not forced by the data (disk errors etc.)
    are modelled by explicit fault parameters, standing for the err argument
    a sqlite3 callback may receive; a uniqueness violation on users.email is
    forced exactly when the email is already stored.
  - The filesystem (the uploads directory) is a list of file paths.
-/

/-- A row of the users table: id INTEGER PRIMARY KEY AUTOINCREMENT,
username TEXT, email TEXT UNIQUE, password TEXT (the bcrypt hash). -/
structure User where
  id : Nat
  username : String
  email : String
  password : String
deriving Repr, DecidableEq

/-- A row of the topics table: id INTEGER PRIMARY KEY (pre-assigned by the
seed, not generated), module_name TEXT, topic_name TEXT. -/
structure Topic where
  id : Nat
  module_name : String
  topic_name : String
deriving Repr, DecidableEq

/-- A row of the assignments table: id INTEGER PRIMARY KEY AUTOINCREMENT,
user_id INTEGER, topic_id INTEGER, file_path TEXT, marks INTEGER DEFAULT 0,
completed INTEGER DEFAULT 0. -/
structure Assignment where
  id : Nat
  user_id : Nat
  topic_id : Nat
  file_path : String
  marks : Int
  completed : Nat
deriving Repr, DecidableEq

/-- The SQLite database state: the three tables plus the AUTOINCREMENT
counters of users and assignments (topics has no AUTOINCREMENT id; seed ids
are pre-assigned). -/
structure DbState where
  users : List User
  topics : List Topic
  assignments : List Assignment
  nextUserId : Nat
  nextAssignmentId : Nat
deriving Repr, DecidableEq

/-- Response of a JSON route: either a success (HTTP 200 from res.json) with
a typed payload, or an error status with a message body. -/
inductive ApiResponse (α : Type) where
  | ok (data : α)
  | err (status : Nat) (message : String)
deriving Repr, DecidableEq

/-- The fixed topic seed list topicsToInsert of index.js (lines 65-85):
14 rows, ids 1-14, spanning the three modules. -/
def topicsToInsert : List Topic :=
  [ ⟨1, "Operating Systems", "Process Scheduling"⟩,
    ⟨2, "Operating Systems", "Inter-process Communication"⟩,
    ⟨3, "Operating Systems", "Paging & Segmentation"⟩,
    ⟨4, "Operating Systems", "Virtual Memory"⟩,
    ⟨5, "Operating Systems", "File Allocation"⟩,
    ⟨6, "Operating Systems", "Directory Structures"⟩,
    ⟨7, "DBMS", "ER Diagrams"⟩,
    ⟨8, "DBMS", "Normalization"⟩,
    ⟨9, "DBMS", "Select Queries"⟩,
    ⟨10, "DBMS", "Joins & Subqueries"⟩,
    ⟨11, "Computer Networks", "OSI Model"⟩,
    ⟨12, "Computer Networks", "TCP/IP Model"⟩,
    ⟨13, "Computer Networks", "IP Addressing"⟩,
    ⟨14, "Computer Networks", "Routing"⟩ ]

/-- One statement of the db.serialize initialization script
(index.js lines 27-96). -/
inductive InitOp where
  | dropTable (tableName : String)
  | createTable (tableName : String)
  | deleteFromTopics
  | insertTopic (t : Topic)
deriving Repr, DecidableEq

/-- The startup script of index.js in source order: drop assignments, topics,
users (children before parents); create users, topics, assignments
(CREATE TABLE IF NOT EXISTS); DELETE FROM topics; then insert the 14 seed
rows in list order. -/
def initScript : List InitOp :=
  [ InitOp.dropTable "assignments",
    InitOp.dropTable "topics",
    InitOp.dropTable "users",
    InitOp.createTable "users",
    InitOp.createTable "topics",
    InitOp.createTable "assignments",
    InitOp.deleteFromTopics ]
  ++ topicsToInsert.map InitOp.insertTopic

/-- Interpreter for one initialization statement.  DROP TABLE discards the
rows of that table and (for AUTOINCREMENT tables) resets its sequence
counter; CREATE TABLE IF NOT EXISTS does not change rows (each table was
just dropped, so it creates the empty table); DELETE FROM topics clears
topics; the seed insert appends a topic row. -/
def runInitOp (st : DbState) (op : InitOp) : DbState :=
  match op with
  | InitOp.dropTable tableName =>
      if tableName = "assignments" then { st with assignments := [], nextAssignmentId := 1 }
      else if tableName = "topics" then { st with topics := [] }
      else if tableName = "users" then { st with users := [], nextUserId := 1 }
      else st
  | InitOp.createTable _ => st
  | InitOp.deleteFromTopics => { st with topics := [] }
  | InitOp.insertTopic t => { st with topics := st.topics ++ [t] }

/-- Run the whole startup script on whatever database state the file
juslearn.db held before the process started. -/
def runInit (prior : DbState) : DbState :=
  initScript.foldl runInitOp prior

/-- The database state immediately after startup initialization and
seeding: empty users and assignments, the 14 seed topics, fresh counters. -/
def seededState : DbState :=
  { users := [], topics := topicsToInsert, assignments := [],
    nextUserId := 1, nextAssignmentId := 1 }

/-- GET /api/modules (index.js lines 161-166): SELECT * FROM topics,
returned as-is. -/
def listModules (st : DbState) : ApiResponse (List Topic) :=
  ApiResponse.ok st.topics

/-- JS truthiness of a request-body string field: false when the field is
absent (undefined) or the empty string.  This is the test behind
`if (!username || !email || !password)` in the signup handler. -/
def jsTruthy : Option String → Bool
  | none => false
  | some s => !(s == "")

/-- POST /api/signup (index.js lines 116-138).  Parameters beyond the state
and the three body fields model the environment: hashFn is bcrypt.hash with
its salt fixed; hashFails models bcrypt.hash throwing (the catch block);
storeFault models a db.run error that is not forced by the data (the email
uniqueness violation is forced whenever the email is already stored).
Any insert error takes the 409 branch of the callback; only a hashing
throw reaches the 500 catch. -/
def signup (st : DbState) (hashFn : String → String)
    (username email password : Option String)
    (hashFails storeFault : Bool) : ApiResponse (String × Nat) × DbState :=
  if !(jsTruthy username) || !(jsTruthy email) || !(jsTruthy password) then
    (ApiResponse.err 400 "Missing required fields", st)
  else if hashFails then
    (ApiResponse.err 500 "Internal server error during hashing.", st)
  else
    let e := email.getD ""
    let insertErr := storeFault || st.users.any (fun u => u.email == e)
    if insertErr then
      (ApiResponse.err 409 "Email or username already in use.", st)
    else
      let newUser : User :=
        ⟨st.nextUserId, username.getD "", e, hashFn (password.getD "")⟩
      (ApiResponse.ok ("User registered successfully", st.nextUserId),
       { st with users := st.users ++ [newUser],
                 nextUserId := st.nextUserId + 1 })

/-- SELECT * FROM users WHERE email = ? with the request-body email bound:
binding an absent field binds SQL NULL, which matches no row; otherwise the
first row with that email is returned (db.get takes the first result). -/
def findUserByEmail (st : DbState) (email : Option String) : Option User :=
  match email with
  | none => none
  | some e => st.users.find? (fun u => u.email == e)

/-- bcrypt.compare of the request-body password against a stored hash,
under the abstract hash function: a present password matches exactly when
its hash is the stored hash.  This is the present-password fragment of the
comparison: bcrypt.compare with an absent password does not return false,
it rejects with an argument error, a path bcryptCompareChecked models
exactly.  The none branch here is a placeholder so login stays total; for
any present password login agrees with the faithful loginChecked (proved
in the C10 theorem below). -/
def bcryptCompare (hashFn : String → String) (password : Option String)
    (storedHash : String) : Bool :=
  match password with
  | none => false
  | some p => hashFn p == storedHash

/-- POST /api/login (index.js lines 141-154): look the user up by email;
if absent return 401 with the shared invalidMessage body; otherwise compare
the password with the stored hash and return the same 401 body on mismatch;
on match return the user's id and username.  (The db.get error branch,
a 500 with the store's message, is a store fault outside any claim and is
not modelled.) -/
def login (st : DbState) (hashFn : String → String)
    (email password : Option String) : ApiResponse (String × Nat × String) :=
  match findUserByEmail st email with
  | none => ApiResponse.err 401 "Invalid credentials"
  | some user =>
      if bcryptCompare hashFn password user.password then
        ApiResponse.ok ("Login successful", user.id, user.username)
      else
        ApiResponse.err 401 "Invalid credentials"

/-- bcrypt.compare with its error path: a present password yields a
comparison result, an absent one makes bcrypt reject ("data and hash
arguments required") instead of resolving — modelled as none. -/
def bcryptCompareChecked (hashFn : String → String) (password : Option String)
    (storedHash : String) : Option Bool :=
  match password with
  | none => none
  | some p => some (hashFn p == storedHash)

/-- POST /api/login (index.js lines 141-154) with bcrypt's error path kept:
the handler awaits bcrypt.compare inside the async db.get callback with no
try/catch, so when the comparison rejects (absent password reaching a
stored user's hash) the rejection is unhandled and the handler sends no
response at all — modelled as none.  Every other path sends the response
login computes. -/
def loginChecked (st : DbState) (hashFn : String → String)
    (email password : Option String) :
    Option (ApiResponse (String × Nat × String)) :=
  match findUserByEmail st email with
  | none => some (ApiResponse.err 401 "Invalid credentials")
  | some user =>
      match bcryptCompareChecked hashFn password user.password with
      | none => none
      | some true => some (ApiResponse.ok ("Login successful", user.id, user.username))
      | some false => some (ApiResponse.err 401 "Invalid credentials")

/-- The effect of
REPLACE INTO assignments(user_id, topic_id, file_path, completed)
VALUES(?,?,?,1)  (index.js line 179).
SQLite REPLACE is INSERT OR REPLACE: it inserts the new row after deleting
any existing row that would collide with it on a uniqueness constraint.
The assignments table's only uniqueness constraint is its INTEGER PRIMARY
KEY id; the statement leaves id unspecified, so a fresh rowid is assigned
and the deletion clause below applies to rows sharing that fresh id.  There
is no UNIQUE constraint on (user_id, topic_id), so rows for the same
(user, topic) pair never collide.  marks is not in the column list and
takes its DEFAULT 0; completed is the literal 1. -/
def replaceIntoAssignments (st : DbState) (uid tid : Nat) (filePath : String) :
    DbState × Nat :=
  let newRow : Assignment := ⟨st.nextAssignmentId, uid, tid, filePath, 0, 1⟩
  let kept := st.assignments.filter (fun a => !(a.id == newRow.id))
  ({ st with assignments := kept ++ [newRow],
             nextAssignmentId := st.nextAssignmentId + 1 },
   newRow.id)

/-- POST /api/upload/:userId/:topicId (index.js lines 169-189), together
with the multer middleware that runs before the handler.  fileSaved is the
path multer stored the uploaded file at (none when the request carried no
file payload, in which case multer saves nothing); fsFiles is the uploads
directory.  dbFault models the db.run callback's err for the REPLACE
statement (some message = the store write failed); on a store failure the
handler unlinks the just-saved file, ignoring any unlink error (unlinkOk
models whether the unlink itself succeeds), and answers 500 with the
store's message.  userId/topicId come from the URL path and are stored
without any existence check. -/
def uploadRoute (st : DbState) (fsFiles : List String) (uid tid : Nat)
    (fileSaved : Option String) (dbFault : Option String) (unlinkOk : Bool) :
    ApiResponse (String × Nat) × DbState × List String :=
  match fileSaved with
  | none => (ApiResponse.err 400 "No file uploaded.", st, fsFiles)
  | some filePath =>
      let fsAfterSave := fsFiles ++ [filePath]
      match dbFault with
      | some errMessage =>
          let fsAfterUnlink :=
            if unlinkOk then fsAfterSave.filter (fun q => !(q == filePath))
            else fsAfterSave
          (ApiResponse.err 500 errMessage, st, fsAfterUnlink)
      | none =>
          let (st1, newId) := replaceIntoAssignments st uid tid filePath
          (ApiResponse.ok ("Assignment uploaded successfully", newId), st1, fsAfterSave)

/-- One row of the progress query result. -/
structure ProgressRow where
  topicId : Nat
  module_name : String
  topic_name : String
  completed : Nat
  marks : Int
deriving Repr, DecidableEq

/-- The rows a single topic contributes to the LEFT JOIN of the progress
query: one row per assignment of the given user on that topic, or, when the
user has none, a single row whose completed and marks are coalesced to 0 by
IFNULL. -/
def progressRowsForTopic (t : Topic) (rows : List Assignment) (uid : Nat) :
    List ProgressRow :=
  match rows.filter (fun a => a.topic_id == t.id && a.user_id == uid) with
  | [] => [⟨t.id, t.module_name, t.topic_name, 0, 0⟩]
  | ms => ms.map (fun a => ⟨t.id, t.module_name, t.topic_name, a.completed, a.marks⟩)

/-- The LEFT JOIN of the progress query over a list of topics: each topic
contributes its progressRowsForTopic, in topic-table order. -/
def progressRows (ts : List Topic) (rows : List Assignment) (uid : Nat) :
    List ProgressRow :=
  match ts with
  | [] => []
  | t :: rest => progressRowsForTopic t rows uid ++ progressRows rest rows uid

/-- GET /api/progress/:userId (index.js lines 192-208):
SELECT t.id, t.module_name, t.topic_name, IFNULL(a.completed,0),
IFNULL(a.marks,0) FROM topics t LEFT JOIN assignments a
ON t.id = a.topic_id AND a.user_id = ?, with topics in table order. -/
def getProgress (st : DbState) (uid : Nat) : List ProgressRow :=
  progressRows st.topics st.assignments uid

/-- One exposed API operation, with the environment choices (faults, hash
failure, unlink success) that accompany it. -/
inductive Op where
  | signupOp (username email password : Option String) (hashFails storeFault : Bool)
  | loginOp (email password : Option String)
  | listModulesOp
  | uploadOp (uid tid : Nat) (fileSaved : Option String)
      (dbFault : Option String) (unlinkOk : Bool)
  | getProgressOp (uid : Nat)
deriving Repr, DecidableEq

/-- The server state: the database plus the uploads directory. -/
structure ServerState where
  db : DbState
  fsFiles : List String
deriving Repr, DecidableEq

/-- State transition of one operation (reads leave the state unchanged;
login and getProgress never write). -/
def step (hashFn : String → String) (s : ServerState) (op : Op) : ServerState :=
  match op with
  | Op.signupOp u e p hf sf => { s with db := (signup s.db hashFn u e p hf sf).2 }
  | Op.loginOp _ _ => s
  | Op.listModulesOp => s
  | Op.uploadOp uid tid file fault ul =>
      let r := uploadRoute s.db s.fsFiles uid tid file fault ul
      { db := r.2.1, fsFiles := r.2.2 }
  | Op.getProgressOp _ => s

/-- Run a sequence of operations from the freshly seeded startup state with
an empty uploads directory. -/
def run (hashFn : String → String) (ops : List Op) : ServerState :=
  ops.foldl (step hashFn) ⟨seededState, []⟩

lemma runInit_eq (prior : DbState) : runInit prior = seededState := by
  simp [runInit, initScript, runInitOp, topicsToInsert, seededState]

/-- C6: immediately after startup seeding, ListModules returns exactly 14
topic entries, whose module names span exactly the set
{"Operating Systems", "DBMS", "Computer Networks"}. -/
theorem listModules_after_seed (prior : DbState) :
    ∃ rows, listModules (runInit prior) = ApiResponse.ok rows ∧
      rows.length = 14 ∧
      (rows.map Topic.module_name).toFinset =
        ({"Operating Systems", "DBMS", "Computer Networks"} : Finset String) := by
  refine ⟨topicsToInsert, ?_, by decide, by decide⟩
  rw [runInit_eq]
  rfl

/-- C7: on every process start, the three tables are dropped and recreated
in dependency order (assignments, then topics, then users are dropped, each
before any table is recreated), the 14-row topic seed is deleted and
re-inserted, and all users and submissions present before the restart are
discarded: whatever the prior state, the resulting state has no users, no
assignments, and exactly the seed topics. -/
theorem startup_reseeds_and_discards (prior : DbState) :
    runInit prior = seededState ∧
    (runInit prior).users = [] ∧
    (runInit prior).assignments = [] ∧
    (runInit prior).topics = topicsToInsert ∧
    topicsToInsert.length = 14 ∧
    initScript.indexOf (InitOp.dropTable "assignments") <
      initScript.indexOf (InitOp.dropTable "topics") ∧
    initScript.indexOf (InitOp.dropTable "topics") <
      initScript.indexOf (InitOp.dropTable "users") ∧
    initScript.indexOf (InitOp.dropTable "users") <
      initScript.indexOf (InitOp.createTable "users") ∧
    initScript.indexOf (InitOp.createTable "users") <
      initScript.indexOf (InitOp.createTable "topics") ∧
    initScript.indexOf (InitOp.createTable "topics") <
      initScript.indexOf (InitOp.createTable "assignments") ∧
    initScript.indexOf (InitOp.createTable "assignments") <
      initScript.indexOf InitOp.deleteFromTopics ∧
    initScript.indexOf InitOp.deleteFromTopics <
      initScript.indexOf (InitOp.insertTopic ⟨1, "Operating Systems", "Process Scheduling"⟩) := by
  refine ⟨runInit_eq prior, ?_, ?_, ?_, by decide, by decide, by decide, by decide,
    by decide, by decide, by decide, by decide⟩ <;> rw [runInit_eq] <;> rfl

/-- C3: for a stored user looked up by email whose password comparison
fails, and for an email matching no stored user, Login returns the same
401 status with the same error payload in both cases; the two causes are
indistinguishable from the response. -/
theorem login_wrong_password_eq_unknown_email (st : DbState)
    (hashFn : String → String) (e e' : String) (u : User) (p p' : Option String)
    (hfind : findUserByEmail st (some e) = some u)
    (hwrong : bcryptCompare hashFn p u.password = false)
    (habsent : findUserByEmail st (some e') = none) :
    login st hashFn (some e) p = ApiResponse.err 401 "Invalid credentials" ∧
    login st hashFn (some e') p' = ApiResponse.err 401 "Invalid credentials" ∧
    login st hashFn (some e) p = login st hashFn (some e') p' := by
  refine ⟨?_, ?_, ?_⟩ <;> simp [login, hfind, habsent, hwrong]

theorem login_wrong_password_eq_unknown_email_witness :
    login ⟨[⟨1, "alice", "a@x.com", "pw123"⟩], [], [], 2, 1⟩ id
        (some "a@x.com") (some "nope") =
      ApiResponse.err 401 "Invalid credentials" ∧
    login ⟨[⟨1, "alice", "a@x.com", "pw123"⟩], [], [], 2, 1⟩ id
        (some "b@y.com") (some "pw123") =
      ApiResponse.err 401 "Invalid credentials" ∧
    login ⟨[⟨1, "alice", "a@x.com", "pw123"⟩], [], [], 2, 1⟩ id
        (some "a@x.com") (some "nope") =
      login ⟨[⟨1, "alice", "a@x.com", "pw123"⟩], [], [], 2, 1⟩ id
        (some "b@y.com") (some "pw123") :=
  login_wrong_password_eq_unknown_email _ id "a@x.com" "b@y.com"
    ⟨1, "alice", "a@x.com", "pw123"⟩ (some "nope") (some "pw123")
    (by decide) (by decide) (by decide)

/-- C10 counterexample: with a stored user's email and an absent password
field, bcrypt.compare rejects, the rejection is unhandled in the async
db.get callback, and the login handler sends no response at all — in
particular not the generic 401 every other failed login gets, and not a
400 either. -/
theorem login_missing_password_no_response :
    loginChecked ⟨[⟨1, "alice", "a@x.com", "pw123"⟩], [], [], 2, 1⟩ id
      (some "a@x.com") none = none ∧
    (none : Option (ApiResponse (String × Nat × String))) ≠
      some (ApiResponse.err 401 "Invalid credentials") ∧
    (none : Option (ApiResponse (String × Nat × String))) ≠
      some (ApiResponse.err 400 "Missing required fields") := by
  refine ⟨rfl, by simp, by simp⟩

/-- C10 amended: Login performs no presence validation — no input is ever
rejected with a 400, and an absent email, an absent password with no
matching user, an empty email matching no user, or an empty password
failing the hash comparison, all fall through the lookup or comparison to
the same generic 401 Invalid credentials response; but when the email
matches a stored user and the password field is absent, the comparison
rejects and no response is sent at all.  With a present password,
loginChecked always sends exactly the response login computes. -/
theorem login_no_presence_validation_amended (st : DbState)
    (hashFn : String → String) (email password : Option String) :
    (∀ m, loginChecked st hashFn email password ≠ some (ApiResponse.err 400 m)) ∧
    loginChecked st hashFn none password =
      some (ApiResponse.err 401 "Invalid credentials") ∧
    (findUserByEmail st email = none →
      loginChecked st hashFn email none =
        some (ApiResponse.err 401 "Invalid credentials")) ∧
    (∀ u, findUserByEmail st email = some u →
      loginChecked st hashFn email none = none) ∧
    (findUserByEmail st (some "") = none →
      loginChecked st hashFn (some "") password =
        some (ApiResponse.err 401 "Invalid credentials")) ∧
    (∀ u, findUserByEmail st email = some u →
      bcryptCompareChecked hashFn (some "") u.password = some false →
      loginChecked st hashFn email (some "") =
        some (ApiResponse.err 401 "Invalid credentials")) ∧
    (∀ p, loginChecked st hashFn email (some p) =
      some (login st hashFn email (some p))) := by
  refine ⟨?_, ?_, ?_, ?_, ?_, ?_, ?_⟩
  · intro m h
    unfold loginChecked at h
    cases hf : findUserByEmail st email with
    | none => rw [hf] at h; simp at h
    | some u =>
        rw [hf] at h
        cases password with
        | none => simp [bcryptCompareChecked] at h
        | some p =>
            cases hb : hashFn p == u.password <;>
              simp [bcryptCompareChecked, hb] at h
  · simp [loginChecked, findUserByEmail]
  · intro h
    simp [loginChecked, h]
  · intro u hu
    simp [loginChecked, hu, bcryptCompareChecked]
  · intro h
    simp [loginChecked, h]
  · intro u hu hb
    simp [loginChecked, hu, hb]
  · intro p
    unfold loginChecked login
    cases hf : findUserByEmail st email with
    | none => simp
    | some u =>
        cases hb : hashFn p == u.password <;>
          simp [bcryptCompareChecked, bcryptCompare, hb]

/-- HTTP status of a response: res.json with no status is 200. -/
def responseStatus {α : Type} : ApiResponse α → Nat
  | ApiResponse.ok _ => 200
  | ApiResponse.err s _ => s

/-- C8: Register answers 400 Missing required fields, inserting nothing,
whenever a field is absent or empty (jsTruthy is false exactly on absent
and empty fields); with all three fields non-empty, a fresh email and no
faults, it inserts one user row and returns the newly generated id. -/
theorem signup_validation_and_success (st : DbState) (hashFn : String → String)
    (username email password : Option String) (hashFails storeFault : Bool) :
    (∀ o : Option String, jsTruthy o = false ↔ (o = none ∨ o = some "")) ∧
    ((jsTruthy username = false ∨ jsTruthy email = false ∨ jsTruthy password = false) →
      signup st hashFn username email password hashFails storeFault =
        (ApiResponse.err 400 "Missing required fields", st)) ∧
    (jsTruthy username = true → jsTruthy email = true → jsTruthy password = true →
      st.users.all (fun u => !(u.email == email.getD "")) = true →
      signup st hashFn username email password false false =
        (ApiResponse.ok ("User registered successfully", st.nextUserId),
         { st with
             users := st.users ++
               [⟨st.nextUserId, username.getD "", email.getD "",
                 hashFn (password.getD "")⟩],
             nextUserId := st.nextUserId + 1 })) := by
  refine ⟨?_, ?_, ?_⟩
  · intro o
    cases o with
    | none => simp [jsTruthy]
    | some s => simp [jsTruthy]
  · intro h
    unfold signup
    rcases h with h | h | h <;> simp [h]
  · intro hu he hp hfresh
    have hany : st.users.any (fun u => u.email == email.getD "") = false := by
      simpa using hfresh
    unfold signup
    simp [hu, he, hp, hany]

/-- C4 counterexample: against an empty users table (so no uniqueness
violation is possible) a store fault on the insert is answered with status
409, not 500: the signup callback routes every insert error to the 409
branch. -/
theorem signup_store_fault_409_not_500 :
    signup seededState id (some "alice") (some "a@x.com") (some "pw123") false true =
      (ApiResponse.err 409 "Email or username already in use.", seededState) ∧
    responseStatus (signup seededState id (some "alice") (some "a@x.com")
      (some "pw123") false true).1 = 409 ∧ (409 : Nat) ≠ 500 := by
  refine ⟨by decide, by decide, by decide⟩

/-- C4 amended: with all fields non-empty, Register answers 409 with the
generic conflict message exactly when the insert fails — whether from the
email uniqueness violation or from any other store failure — and answers
500 exactly when the hashing step fails. -/
theorem signup_conflict_exactly_on_insert_error (st : DbState)
    (hashFn : String → String) (u e p : String) (hashFails storeFault : Bool)
    (hu : u ≠ "") (he : e ≠ "") (hp : p ≠ "") :
    ((signup st hashFn (some u) (some e) (some p) hashFails storeFault).1 =
        ApiResponse.err 409 "Email or username already in use." ↔
      hashFails = false ∧
        (storeFault = true ∨ st.users.any (fun x => x.email == e) = true)) ∧
    ((signup st hashFn (some u) (some e) (some p) hashFails storeFault).1 =
        ApiResponse.err 500 "Internal server error during hashing." ↔
      hashFails = true) := by
  have htu : jsTruthy (some u) = true := by simp [jsTruthy, hu]
  have hte : jsTruthy (some e) = true := by simp [jsTruthy, he]
  have htp : jsTruthy (some p) = true := by simp [jsTruthy, hp]
  unfold signup
  cases hashFails <;> cases storeFault <;>
    cases hany : st.users.any (fun x => x.email == e) <;>
    simp [htu, hte, htp, hany]

theorem signup_conflict_exactly_on_insert_error_witness :
    ((signup seededState id (some "alice") (some "a@x.com") (some "pw123")
        false true).1 =
      ApiResponse.err 409 "Email or username already in use." ↔
      false = false ∧
        (true = true ∨
          seededState.users.any (fun x => x.email == "a@x.com") = true)) ∧
    ((signup seededState id (some "alice") (some "a@x.com") (some "pw123")
        false true).1 =
      ApiResponse.err 500 "Internal server error during hashing." ↔
      false = true) :=
  signup_conflict_exactly_on_insert_error seededState id "alice" "a@x.com"
    "pw123" false true (by decide) (by decide) (by decide)

/-- C5: Upload with no file payload answers 400 No file uploaded and
mutates nothing; when the store write fails after the file was saved, the
database is unchanged, the just-written file is deleted when the unlink
succeeds and left in place when it fails, and either way the response is
the same 500 carrying the store's message. -/
theorem upload_validation_and_fault_cleanup (st : DbState)
    (fsFiles : List String) (uid tid : Nat) (filePath errMessage : String)
    (dbFault : Option String) (unlinkOk : Bool) :
    (uploadRoute st fsFiles uid tid none dbFault unlinkOk =
      (ApiResponse.err 400 "No file uploaded.", st, fsFiles)) ∧
    ((uploadRoute st fsFiles uid tid (some filePath) (some errMessage) unlinkOk).1 =
      ApiResponse.err 500 errMessage) ∧
    ((uploadRoute st fsFiles uid tid (some filePath) (some errMessage) unlinkOk).2.1 =
      st) ∧
    (filePath ∉
      (uploadRoute st fsFiles uid tid (some filePath) (some errMessage) true).2.2) ∧
    ((uploadRoute st fsFiles uid tid (some filePath) (some errMessage) false).2.2 =
      fsFiles ++ [filePath]) ∧
    ((uploadRoute st fsFiles uid tid (some filePath) (some errMessage) true).1 =
      (uploadRoute st fsFiles uid tid (some filePath) (some errMessage) false).1) := by
  refine ⟨rfl, ?_, ?_, ?_, rfl, rfl⟩
  · cases unlinkOk <;> rfl
  · cases unlinkOk <;> rfl
  · simp [uploadRoute, List.mem_filter]

/-- C1: evaluation at the failing input.  Two consecutive uploads for the
same pair (userId 1, topicId 1) from the seeded startup state leave TWO
assignment rows for that pair, not one: the REPLACE INTO statement never
finds a uniqueness conflict (the table has none on (user_id, topic_id)) and
so degenerates to a plain insert.  Both files' rows persist; the earlier
row keeps the first upload's path. -/
theorem double_upload_leaves_two_rows :
    (run id [Op.uploadOp 1 1 (some "uploads/100-a.pdf") none true,
             Op.uploadOp 1 1 (some "uploads/200-b.pdf") none true]).db.assignments =
      [⟨1, 1, 1, "uploads/100-a.pdf", 0, 1⟩, ⟨2, 1, 1, "uploads/200-b.pdf", 0, 1⟩] ∧
    ((run id [Op.uploadOp 1 1 (some "uploads/100-a.pdf") none true,
              Op.uploadOp 1 1 (some "uploads/200-b.pdf") none true]).db.assignments.filter
        (fun a => a.user_id == 1 && a.topic_id == 1)).length = 2 ∧
    (2 : Nat) ≠ 1 := by
  refine ⟨by decide, by decide, by decide⟩

/-- C2 counterexample: in the reachable state produced by uploading twice
for (userId 1, topicId 1), GetProgress for user 1 returns 15 rows over a
14-topic catalog, topic 1 appearing twice — the LEFT JOIN emits one row per
matching assignment row. -/
theorem progress_duplicate_topic_counterexample :
    ((getProgress (run id [Op.uploadOp 1 1 (some "uploads/100-a.pdf") none true,
        Op.uploadOp 1 1 (some "uploads/200-b.pdf") none true]).db 1).length = 15) ∧
    (((getProgress (run id [Op.uploadOp 1 1 (some "uploads/100-a.pdf") none true,
        Op.uploadOp 1 1 (some "uploads/200-b.pdf") none true]).db 1).filter
          (fun r => r.topicId == 1)).length = 2) ∧
    ((run id [Op.uploadOp 1 1 (some "uploads/100-a.pdf") none true,
        Op.uploadOp 1 1 (some "uploads/200-b.pdf") none true]).db.topics.length = 14) ∧
    (2 : Nat) ≠ 1 := by
  refine ⟨by decide, by decide, by decide, by decide⟩

lemma progressRowsForTopic_topicIds (t : Topic) (rows : List Assignment)
    (uid : Nat)
    (h : (rows.filter fun a => a.topic_id == t.id && a.user_id == uid).length ≤ 1) :
    (progressRowsForTopic t rows uid).map ProgressRow.topicId = [t.id] := by
  unfold progressRowsForTopic
  cases hm : rows.filter fun a => a.topic_id == t.id && a.user_id == uid with
  | nil => simp
  | cons a l =>
      cases l with
      | nil => simp
      | cons b l2 =>
          exfalso
          rw [hm] at h
          simp at h

lemma mem_progressRows_of_mem (ts : List Topic) (rows : List Assignment)
    (uid : Nat) (t : Topic) (ht : t ∈ ts) (r : ProgressRow)
    (hr : r ∈ progressRowsForTopic t rows uid) : r ∈ progressRows ts rows uid := by
  induction ts with
  | nil => cases ht
  | cons t0 rest ih =>
      rcases List.mem_cons.mp ht with rfl | hmem
      · simp only [progressRows, List.mem_append]
        exact Or.inl hr
      · simp only [progressRows, List.mem_append]
        exact Or.inr (ih hmem)

lemma progressRows_topicIds (ts : List Topic) (rows : List Assignment)
    (uid : Nat)
    (h : ∀ t ∈ ts,
      (rows.filter fun a => a.topic_id == t.id && a.user_id == uid).length ≤ 1) :
    (progressRows ts rows uid).map ProgressRow.topicId = ts.map Topic.id := by
  induction ts with
  | nil => rfl
  | cons t rest ih =>
      have h1 := progressRowsForTopic_topicIds t rows uid (h t (by simp))
      have h2 := ih (fun t' ht' => h t' (by simp [ht']))
      simp [progressRows, h1, h2]

lemma progressRows_no_assignments (ts : List Topic) (rows : List Assignment)
    (uid : Nat)
    (h : ∀ t ∈ ts,
      (rows.filter fun a => a.topic_id == t.id && a.user_id == uid) = []) :
    progressRows ts rows uid =
      ts.map (fun t => ⟨t.id, t.module_name, t.topic_name, 0, 0⟩) := by
  induction ts with
  | nil => rfl
  | cons t rest ih =>
      have h1 := h t (by simp)
      have h2 := ih (fun t' ht' => h t' (by simp [ht']))
      simp [progressRows, progressRowsForTopic, h1, h2]

/-- C2 amended: provided the user has at most one assignment row per topic
(the invariant the upload route is meant to maintain), GetProgress returns
each catalog topic exactly once, in catalog order; a topic with no
assignment for the user contributes the coalesced row completed=0, marks=0;
a user with no assignment at all gets exactly the all-zero row of every
topic, and on the seeded catalog that is 14 rows, every one completed=0 and
marks=0 — this holds for every userId, known or unknown. -/
theorem progress_each_topic_once_amended (st : DbState) (uid : Nat)
    (hone : ∀ t ∈ st.topics,
      (st.assignments.filter fun a => a.topic_id == t.id && a.user_id == uid).length ≤ 1) :
    (getProgress st uid).map ProgressRow.topicId = st.topics.map Topic.id ∧
    (∀ t ∈ st.topics,
      (st.assignments.filter fun a => a.topic_id == t.id && a.user_id == uid) = [] →
        (⟨t.id, t.module_name, t.topic_name, 0, 0⟩ : ProgressRow) ∈ getProgress st uid) ∧
    ((st.assignments.filter fun a => a.user_id == uid) = [] →
      getProgress st uid =
        st.topics.map fun t => ⟨t.id, t.module_name, t.topic_name, 0, 0⟩) ∧
    (getProgress seededState uid).length = 14 ∧
    (∀ r ∈ getProgress seededState uid, r.completed = 0 ∧ r.marks = 0) := by
  have hseed : getProgress seededState uid =
      topicsToInsert.map fun t => ⟨t.id, t.module_name, t.topic_name, 0, 0⟩ :=
    progressRows_no_assignments _ _ _ (fun t _ => rfl)
  refine ⟨progressRows_topicIds _ _ _ hone, ?_, ?_, ?_, ?_⟩
  · intro t ht hfil
    apply mem_progressRows_of_mem _ _ _ t ht
    simp [progressRowsForTopic, hfil]
  · intro hnone
    apply progressRows_no_assignments
    intro t _
    rw [List.filter_eq_nil_iff] at hnone ⊢
    intro a ha hpa
    simp only [Bool.and_eq_true] at hpa
    exact hnone a ha hpa.2
  · rw [hseed]
    decide
  · intro r hr
    rw [hseed] at hr
    rcases List.mem_map.mp hr with ⟨t, _, rfl⟩
    exact ⟨rfl, rfl⟩

theorem progress_each_topic_once_amended_witness :
    (getProgress seededState 42).map ProgressRow.topicId =
      seededState.topics.map Topic.id ∧
    (∀ t ∈ seededState.topics,
      (seededState.assignments.filter
        fun a => a.topic_id == t.id && a.user_id == 42) = [] →
        (⟨t.id, t.module_name, t.topic_name, 0, 0⟩ : ProgressRow) ∈
          getProgress seededState 42) ∧
    ((seededState.assignments.filter fun a => a.user_id == 42) = [] →
      getProgress seededState 42 =
        seededState.topics.map fun t => ⟨t.id, t.module_name, t.topic_name, 0, 0⟩) ∧
    (getProgress seededState 42).length = 14 ∧
    (∀ r ∈ getProgress seededState 42, r.completed = 0 ∧ r.marks = 0) :=
  progress_each_topic_once_amended seededState 42 (by decide)

lemma signup_keeps_assignments (st : DbState) (hashFn : String → String)
    (u e p : Option String) (hf sf : Bool) :
    ((signup st hashFn u e p hf sf).2).assignments = st.assignments := by
  unfold signup
  split
  · rfl
  · split
    · rfl
    · dsimp only
      split <;> rfl

lemma upload_marks_zero (st : DbState) (fs : List String) (uid tid : Nat)
    (file dbFault : Option String) (ul : Bool)
    (h : ∀ a ∈ st.assignments, a.marks = 0) :
    ∀ a ∈ ((uploadRoute st fs uid tid file dbFault ul).2.1).assignments,
      a.marks = 0 := by
  cases file with
  | none => exact h
  | some path =>
      cases dbFault with
      | some m => exact h
      | none =>
          intro a ha
          simp only [uploadRoute, replaceIntoAssignments] at ha
          rcases List.mem_append.mp ha with hmem | hmem
          · exact h a (List.mem_filter.mp hmem).1
          · rw [List.mem_singleton.mp hmem]

lemma step_marks_zero (hashFn : String → String) (s : ServerState) (op : Op)
    (h : ∀ a ∈ s.db.assignments, a.marks = 0) :
    ∀ a ∈ (step hashFn s op).db.assignments, a.marks = 0 := by
  cases op with
  | signupOp u e p hf sf =>
      simp only [step, signup_keeps_assignments]
      exact h
  | loginOp e p => exact h
  | listModulesOp => exact h
  | uploadOp uid tid file fault ul =>
      simp only [step]
      exact upload_marks_zero s.db s.fsFiles uid tid file fault ul h
  | getProgressOp uid => exact h

lemma foldl_marks_zero (hashFn : String → String) (ops : List Op) :
    ∀ s : ServerState, (∀ a ∈ s.db.assignments, a.marks = 0) →
      ∀ a ∈ (ops.foldl (step hashFn) s).db.assignments, a.marks = 0 := by
  induction ops with
  | nil => intro s h; exact h
  | cons op rest ih =>
      intro s h
      exact ih _ (step_marks_zero hashFn s op h)

lemma progressRowsForTopic_marks (t : Topic) (rows : List Assignment)
    (uid : Nat) (h : ∀ a ∈ rows, a.marks = 0) (r : ProgressRow)
    (hr : r ∈ progressRowsForTopic t rows uid) : r.marks = 0 := by
  unfold progressRowsForTopic at hr
  cases hm : rows.filter fun a => a.topic_id == t.id && a.user_id == uid with
  | nil =>
      rw [hm] at hr
      simp at hr
      simp [hr]
  | cons a l =>
      rw [hm] at hr
      simp only [List.mem_map] at hr
      rcases hr with ⟨a', ha', rfl⟩
      have hmem : a' ∈ rows.filter fun a => a.topic_id == t.id && a.user_id == uid := by
        rw [hm]; exact ha'
      exact h a' (List.mem_filter.mp hmem).1

lemma progressRows_marks (ts : List Topic) (rows : List Assignment)
    (uid : Nat) (h : ∀ a ∈ rows, a.marks = 0) :
    ∀ r ∈ progressRows ts rows uid, r.marks = 0 := by
  induction ts with
  | nil => intro r hr; cases hr
  | cons t rest ih =>
      intro r hr
      simp only [progressRows, List.mem_append] at hr
      rcases hr with hr | hr
      · exact progressRowsForTopic_marks t rows uid h r hr
      · exact ih r hr

/-- C9: no exposed operation ever sets marks to a non-zero value: after any
sequence of signup, login, listModules, upload and getProgress operations
from the seeded startup state, every assignment row has marks = 0 (so a
re-upload over an existing pair still leaves marks at the default 0), and
every GetProgress row reports marks = 0. -/
theorem marks_always_zero (hashFn : String → String) (ops : List Op) (uid : Nat) :
    (∀ a ∈ (run hashFn ops).db.assignments, a.marks = 0) ∧
    (∀ r ∈ getProgress (run hashFn ops).db uid, r.marks = 0) := by
  have hall : ∀ a ∈ (run hashFn ops).db.assignments, a.marks = 0 :=
    foldl_marks_zero hashFn ops ⟨seededState, []⟩ (fun a ha => by cases ha)
  refine ⟨hall, ?_⟩
  intro r hr
  simp only [getProgress] at hr
  exact progressRows_marks _ _ _ hall r hr
